import Mathlib

/-
Verification of the pyc handler (src/handlers/pyc.rs) of add-determinism.

The handler's core is:
  * `filter`             — candidate selection by file extension (line 14);
  * `verify_python3_pyc` — header validation, magic-value → version
                           resolution, and the eligibility gate (line 18);
  * `process`            — the per-file pipeline (line 303).

Shallow embedding conventions:
  * a `u8` is a `Fin 256`; the `[u8; 4]` header buffer is the structure
    `Buf4`;
  * `anyhow::Error` results are an explicit error inductive `PycError`
    carrying the same diagnostic payload (path and raw header bytes) the
    source formats into its messages; `Result<T>` is `Except PycError T`;
  * a `&Path` is its list of components (`List String`); the root path
    `/` has no components and hence no file name, matching
    `Path::file_name` returning `None`;
  * the external MarshalParser transform invoked through pyo3 is an
    abstract parameter of `process`; the source's derived-path check and
    `io.finalize(true)` are abstracted as the transform's Bool result.
-/

/-- One 4-byte magic header as read from the start of a candidate file:
the `buf : [u8; 4]` of `verify_python3_pyc`. -/
structure Buf4 where
  b0 : Fin 256
  b1 : Fin 256
  b2 : Fin 256
  b3 : Fin 256
  deriving DecidableEq, Repr

/-- The error outcomes the handler can produce, with the diagnostic
payload the source interpolates into the `anyhow!` messages. -/
inductive PycError where
  | notAPycFile (path : String) (buf : Buf4)
  | unknownPycVersion (path : String) (buf : Buf4)
  | truncatedInput (path : String)
  deriving DecidableEq

/-- The version code of a header:
`let val = ((buf[1] as u32) << 8) + (buf[0] as u32)` (pyc.rs line 254).
Both bytes are below 256, so `(b1 << 8) + b0` never exceeds 65535 and
the `u32` arithmetic is exact; we use plain `Nat`. -/
def version_code (buf : Buf4) : Nat :=
  buf.b1.val * 256 + buf.b0.val

/-- The `match val` table of `verify_python3_pyc` (pyc.rs lines 258-286),
arm by arm in source order.  Rust `match` tests arms top to bottom and
takes the first that matches, which an `if`-chain reproduces exactly;
the overlapping `3000..=N` ranges are kept in their listed order. -/
def resolveVersion (val : Nat) : Option String :=
  if val = 20121 then some "1.5"
  else if val = 50428 then some "1.6"
  else if val = 50823 then some "2.0"
  else if val = 60202 then some "2.1"
  else if val = 60717 then some "2.2"
  else if val = 62011 ∨ val = 62021 then some "2.3"
  else if val = 62041 ∨ val = 62051 ∨ val = 62061 then some "2.4"
  else if val = 62071 ∨ val = 62081 ∨ val = 62091 ∨ val = 62092 ∨
          val = 62101 ∨ val = 62111 ∨ val = 62121 ∨ val = 62131 then some "2.5"
  else if val = 62151 ∨ val = 62161 then some "2.6"
  else if val = 62171 ∨ val = 62181 ∨ val = 62191 ∨ val = 62201 ∨
          val = 62211 then some "2.7"
  else if 3000 ≤ val ∧ val ≤ 3131 then some "3.0"
  else if 3000 ≤ val ∧ val ≤ 3151 then some "3.1"
  else if 3000 ≤ val ∧ val ≤ 3160 then some "3.1"
  else if 3000 ≤ val ∧ val ≤ 3180 then some "3.2"
  else if 3000 ≤ val ∧ val ≤ 3230 then some "3.3"
  else if 3000 ≤ val ∧ val ≤ 3310 then some "3.4"
  else if 3000 ≤ val ∧ val ≤ 3351 then some "3.5"
  else if 3000 ≤ val ∧ val ≤ 3379 then some "3.6"
  else if 3000 ≤ val ∧ val ≤ 3394 then some "3.7"
  else if 3000 ≤ val ∧ val ≤ 3413 then some "3.8"
  else if 3000 ≤ val ∧ val ≤ 3425 then some "3.9"
  else if 3000 ≤ val ∧ val ≤ 3439 then some "3.10"
  else if 3000 ≤ val ∧ val ≤ 3495 then some "3.11"
  else if 3000 ≤ val ∧ val ≤ 3531 then some "3.12"
  else if 3000 ≤ val ∧ val ≤ 3600 then some "3.13"
  else if 3600 ≤ val ∧ val ≤ 4000 then some "3.14+"
  else none

/-- Rust `v.starts_with('2')` with a `char` pattern: the first character
of the string equals the given character (false on the empty string). -/
def starts_with (v : String) (c : Char) : Bool :=
  match v.data with
  | [] => false
  | d :: _ => d == c

/-- `verify_python3_pyc` (pyc.rs lines 18, 250-301): reject a header whose
trailer bytes 2-3 are not `{0x0D, 0x0A}`; resolve the version code; an
unresolved code is an error; a resolved `2`-prefixed label yields
`Ok(false)` (skip), any other resolved label yields `Ok(true)`. -/
def verify_python3_pyc (input_path : String) (buf : Buf4) : Except PycError Bool :=
  if ¬ (buf.b2 = (13 : Fin 256) ∧ buf.b3 = (10 : Fin 256)) then
    .error (.notAPycFile input_path buf)
  else
    match resolveVersion (version_code buf) with
    | none => .error (.unknownPycVersion input_path buf)
    | some v => if starts_with v '2' then .ok false else .ok true

/-- Characters after the last `.` of the list, if the list has a `.` at
all; helper for `rpath_extension`. -/
def after_last_dot : List Char → Option (List Char)
  | [] => none
  | c :: rest =>
    match after_last_dot rest with
    | some e => some e
    | none => if c = '.' then some rest else none

/-- Rust `Path::extension` on a path given as its list of components:
take the file name (the last component; the root path has none) and
return the portion after its last `.`, where a `.` as the very first
character of the file name does not count (a file name that begins with
a dot and has no other dot has no extension). -/
def rpath_extension (components : List String) : Option String :=
  match components.getLast? with
  | none => none
  | some name =>
    match name.data with
    | [] => none
    | _ :: rest => Option.map String.mk (after_last_dot rest)

/-- `filter` (pyc.rs line 14):
`path.extension().is_some_and(|x| x == "pyc")`, i.e. the extension is
present and equals `"pyc"`.  The source wraps the Bool in `Ok`; it can
never fail, so the model returns the Bool directly. -/
def filter (path : List String) : Bool :=
  rpath_extension path == some "pyc"

/-- `process` (pyc.rs lines 303-341) on the file's contents: read the
first 4 bytes (an error when fewer are available, as `read_exact`
fails), run `verify_python3_pyc` and propagate its error; on
`Ok(false)` return `Ok(false)` without touching the transform; on
`Ok(true)` invoke the external MarshalParser transform, abstracted as
`transform`, whose Bool result stands for the source's
derived-path-existence check and `io.finalize(true)`. -/
def process (transform : String → Bool) (input_path : String)
    (contents : List (Fin 256)) : Except PycError Bool :=
  match contents with
  | b0 :: b1 :: b2 :: b3 :: _ =>
    match verify_python3_pyc input_path (Buf4.mk b0 b1 b2 b3) with
    | .error e => .error e
    | .ok false => .ok false
    | .ok true => .ok (transform input_path)
  | _ => .error (.truncatedInput input_path)

/-- The exact legacy codes of the resolution table: the values of the
exact-match arms of `verify_python3_pyc` (pyc.rs lines 259-268), in
source order. -/
def legacyCodes : List Nat :=
  [20121, 50428, 50823, 60202, 60717,
   62011, 62021,
   62041, 62051, 62061,
   62071, 62081, 62091, 62092, 62101, 62111, 62121, 62131,
   62151, 62161,
   62171, 62181, 62191, 62201, 62211]

/-- The closed set of labels the resolution table can produce (each
distinct `Some` value of the `match` arms, pyc.rs lines 259-284). -/
def resolvedLabels : List String :=
  ["1.5", "1.6", "2.0", "2.1", "2.2", "2.3", "2.4", "2.5", "2.6", "2.7",
   "3.0", "3.1", "3.2", "3.3", "3.4", "3.5", "3.6", "3.7", "3.8", "3.9",
   "3.10", "3.11", "3.12", "3.13", "3.14+"]

/-- The eligibility gate of `verify_python3_pyc` (pyc.rs lines 292-299):
the two guarded `match` arms return `Ok(false)` when the resolved label
starts with the character 2 and `Ok(true)` otherwise, i.e. the verdict
is `eligibility v`. -/
def eligibility (v : String) : Bool :=
  if starts_with v '2' then false else true

lemma resolveVersion_none_below_3000 (val : Nat) (h : val < 3000) :
    resolveVersion val = none := by
  unfold resolveVersion
  iterate 26 rw [if_neg (by omega)]

/-- Claim C2: for the version code exactly 3600, resolution returns
"3.13", because the range `3000..=3600` is tested before `3600..=4000`. -/
theorem code_3600_resolves_to_3_13 : resolveVersion 3600 = some "3.13" := rfl

/-- Claim C1: every version code in the inclusive range [3000, 3131]
resolves to the label "3.0": the `3000..=3131` arm is the first range
arm of the table and the first match wins, even for codes that nominally
belong to later minor versions. -/
theorem range_3000_3131_resolves_to_3_0 (val : Nat)
    (h1 : 3000 ≤ val) (h2 : val ≤ 3131) :
    resolveVersion val = some "3.0" := by
  unfold resolveVersion
  iterate 10 rw [if_neg (by omega)]
  rw [if_pos (And.intro h1 h2)]

/-- Witness for C1: the code 3100 lies in [3000, 3131] (nominally a 3.1-era
code) and resolves to "3.0". -/
theorem range_3000_3131_resolves_to_3_0_witness :
    3000 ≤ 3100 ∧ 3100 ≤ 3131 ∧ resolveVersion 3100 = some "3.0" :=
  ⟨by omega, by omega, range_3000_3131_resolves_to_3_0 3100 (by omega) (by omega)⟩

/-- Claim C3: each exact legacy magic value resolves to its documented
label: 20121 to "1.5", 62171 and 62211 to "2.7", and all eight sub-codes
62071, 62081, 62091, 62092, 62101, 62111, 62121, 62131 to "2.5". -/
theorem legacy_exact_codes_resolve :
    resolveVersion 20121 = some "1.5" ∧
    resolveVersion 62171 = some "2.7" ∧ resolveVersion 62211 = some "2.7" ∧
    resolveVersion 62071 = some "2.5" ∧ resolveVersion 62081 = some "2.5" ∧
    resolveVersion 62091 = some "2.5" ∧ resolveVersion 62092 = some "2.5" ∧
    resolveVersion 62101 = some "2.5" ∧ resolveVersion 62111 = some "2.5" ∧
    resolveVersion 62121 = some "2.5" ∧ resolveVersion 62131 = some "2.5" :=
  ⟨rfl, rfl, rfl, rfl, rfl, rfl, rfl, rfl, rfl, rfl, rfl⟩

/-- Claim C4: a header whose trailer bytes 2-3 are not {0x0D, 0x0A} makes
verification fail with `notAPycFile` carrying the path and the raw header
bytes, for any values of bytes 0-1; the version table is never consulted. -/
theorem bad_trailer_not_a_pyc (path : String) (buf : Buf4)
    (h : ¬ (buf.b2 = (13 : Fin 256) ∧ buf.b3 = (10 : Fin 256))) :
    verify_python3_pyc path buf = .error (.notAPycFile path buf) := by
  unfold verify_python3_pyc
  rw [if_pos h]

/-- Witness for C4: the all-zero header is rejected as not a pyc file. -/
theorem bad_trailer_not_a_pyc_witness :
    ¬ ((Buf4.mk 0 0 0 0).b2 = (13 : Fin 256) ∧ (Buf4.mk 0 0 0 0).b3 = (10 : Fin 256)) ∧
    verify_python3_pyc "f" (Buf4.mk 0 0 0 0) =
      .error (.notAPycFile "f" (Buf4.mk 0 0 0 0)) :=
  ⟨by decide, bad_trailer_not_a_pyc "f" (Buf4.mk 0 0 0 0) (by decide)⟩

/-- Claim C10: a valid header carrying a Python 1.x legacy code is
eligible: 20121 is the bytes 0x99 0x4E (153, 78) and resolves to "1.5",
50428 is 0xFC 0xC4 (252, 196) and resolves to "1.6"; neither label
begins with the character 2, so verification returns `Ok(true)` and the
file is normalized rather than skipped. -/
theorem python1_codes_verify_true (path : String) :
    verify_python3_pyc path (Buf4.mk 153 78 13 10) = .ok true ∧
    verify_python3_pyc path (Buf4.mk 252 196 13 10) = .ok true :=
  ⟨rfl, rfl⟩

lemma verify_eq_of_trailer_ok (path : String) (buf : Buf4)
    (ht : buf.b2 = (13 : Fin 256) ∧ buf.b3 = (10 : Fin 256)) :
    verify_python3_pyc path buf =
      match resolveVersion (version_code buf) with
      | none => .error (.unknownPycVersion path buf)
      | some v => if starts_with v '2' then .ok false else .ok true := by
  unfold verify_python3_pyc
  rw [if_neg (not_not_intro ht)]

lemma verify_ok_eligibility (path : String) (buf : Buf4) (v : String)
    (ht : buf.b2 = (13 : Fin 256) ∧ buf.b3 = (10 : Fin 256))
    (hres : resolveVersion (version_code buf) = some v) :
    verify_python3_pyc path buf = .ok (eligibility v) := by
  rw [verify_eq_of_trailer_ok path buf ht, hres]
  unfold eligibility
  cases h : starts_with v '2' <;> simp [h]

/-- Claim C5: a valid header whose version code is strictly below 3000
and is not one of the exact legacy codes makes verification fail with
`unknownPycVersion` (no label, no skip verdict).  In fact every exact
legacy code is far above 3000, so no code below 3000 resolves at all. -/
theorem low_unlisted_code_unknown_version (path : String) (buf : Buf4)
    (ht : buf.b2 = (13 : Fin 256) ∧ buf.b3 = (10 : Fin 256))
    (hlo : version_code buf < 3000)
    (hnl : version_code buf ∉ legacyCodes) :
    verify_python3_pyc path buf = .error (.unknownPycVersion path buf) := by
  rw [verify_eq_of_trailer_ok path buf ht, resolveVersion_none_below_3000 _ hlo]

/-- Witness for C5: the code 1234 (bytes 0xD2 0x04) is below 3000 and not
a legacy code, and its valid header is rejected with unknown version. -/
theorem low_unlisted_code_unknown_version_witness :
    ((Buf4.mk 210 4 13 10).b2 = (13 : Fin 256) ∧ (Buf4.mk 210 4 13 10).b3 = (10 : Fin 256)) ∧
    version_code (Buf4.mk 210 4 13 10) < 3000 ∧
    version_code (Buf4.mk 210 4 13 10) ∉ legacyCodes ∧
    verify_python3_pyc "g" (Buf4.mk 210 4 13 10) =
      .error (.unknownPycVersion "g" (Buf4.mk 210 4 13 10)) :=
  ⟨by decide, by decide, by decide,
    low_unlisted_code_unknown_version "g" (Buf4.mk 210 4 13 10)
      (by decide) (by decide) (by decide)⟩

/-- Claim C6: over the closed set of labels the table can produce, the
eligibility verdict is false for every label whose leading character is
2 and true for every label whose leading character is 3, "3.14+"
included. -/
theorem eligibility_verdict_by_series :
    ∀ v ∈ resolvedLabels,
      (starts_with v '2' = true → eligibility v = false) ∧
      (starts_with v '3' = true → eligibility v = true) := by
  decide

/-- Witness for C6: "3.14+" is a resolvable label, 3-prefixed, and its
verdict is true. -/
theorem eligibility_verdict_by_series_witness :
    "3.14+" ∈ resolvedLabels ∧
    ((starts_with "3.14+" '2' = true → eligibility "3.14+" = false) ∧
     (starts_with "3.14+" '3' = true → eligibility "3.14+" = true)) :=
  ⟨by decide, eligibility_verdict_by_series "3.14+" (by decide)⟩

/-- Claim C7: the candidate-selection predicate selects exactly the paths
whose final extension component is "pyc": it accepts foobar.pyc and
foobar.opt-2.pyc and rejects foobar.apyc, foobar, pyc, pyc_pyc and the
root path (which has no file name), reproducing the source's `filter_a`
test (pyc.rs lines 347-356). -/
theorem filter_selects_pyc_extension :
    filter ["some", "path", "foobar.pyc"] = true ∧
    filter ["some", "path", "foobar.opt-2.pyc"] = true ∧
    filter ["some", "path", "foobar.apyc"] = false ∧
    filter ["some", "path", "foobar"] = false ∧
    filter ["some", "path", "pyc"] = false ∧
    filter ["some", "path", "pyc_pyc"] = false ∧
    filter [] = false :=
  ⟨rfl, rfl, rfl, rfl, rfl, rfl, rfl⟩

/-- Counterexample to claim C8 as stated: the claim says every exact
legacy code in the table has a numeric value below 3000, but the very
first legacy code, 20121 (Python 1.5), is not below 3000. -/
theorem legacy_codes_below_3000_refuted :
    20121 ∈ legacyCodes ∧ ¬ (20121 < 3000) := by
  decide

/-- Claim C8, amended: every exact legacy magic code in the resolution
table has a numeric value above 4000 — above the whole 3.x range table,
not below it — and each resolves to a label. -/
theorem legacy_codes_above_range_table (c : Nat) (h : c ∈ legacyCodes) :
    4000 < c ∧ (resolveVersion c).isSome = true := by
  fin_cases h <;> exact ⟨by omega, rfl⟩

/-- Witness for the amended C8: 20121 is a legacy code, above 4000, and
resolves. -/
theorem legacy_codes_above_range_table_witness :
    20121 ∈ legacyCodes ∧ (4000 < 20121 ∧ (resolveVersion 20121).isSome = true) :=
  ⟨by decide, legacy_codes_above_range_table 20121 (by decide)⟩

/-- Claim C9: on contents with a valid pyc header whose version code
resolves to a 2-prefixed label, the pipeline returns `Ok(false)` — the
skip outcome, a non-error success — and this holds for every transform,
so the normalization transform is never consulted for such a file. -/
theorem python2_files_skipped (transform : String → Bool) (path : String)
    (b0 b1 b2 b3 : Fin 256) (rest : List (Fin 256)) (v : String)
    (ht : b2 = (13 : Fin 256) ∧ b3 = (10 : Fin 256))
    (hres : resolveVersion (version_code (Buf4.mk b0 b1 b2 b3)) = some v)
    (h2 : starts_with v '2' = true) :
    process transform path (b0 :: b1 :: b2 :: b3 :: rest) = .ok false := by
  have hv : verify_python3_pyc path (Buf4.mk b0 b1 b2 b3) = .ok false := by
    rw [verify_eq_of_trailer_ok path (Buf4.mk b0 b1 b2 b3) ht, hres]
    simp [h2]
  simp only [process]
  rw [hv]

/-- Witness for C9: bytes 0x3B 0xF2 0x0D 0x0A carry code 62011, which
resolves to "2.3"; the pipeline skips the file even under a transform
that would always report a modification. -/
theorem python2_files_skipped_witness :
    ((13 : Fin 256) = (13 : Fin 256) ∧ (10 : Fin 256) = (10 : Fin 256)) ∧
    resolveVersion (version_code (Buf4.mk 59 242 13 10)) = some "2.3" ∧
    starts_with "2.3" '2' = true ∧
    process (fun _ => true) "h" [59, 242, 13, 10] = .ok false :=
  ⟨⟨rfl, rfl⟩, rfl, rfl,
    python2_files_skipped (fun _ => true) "h" 59 242 13 10 [] "2.3"
      ⟨rfl, rfl⟩ rfl rfl⟩
